import Mathlib

/-!
# Shalev stock/change tracker — verification of the spec against the source

Shallow embedding of the core of the Shalev tracker (src/bot.py, src/database.py,
src/scrapers.py, src/config.py).  Python strings are modelled as Lean `String`,
with all processing done charwise over `String.data` by structural recursion so
every definition evaluates inside the kernel.  MongoDB documents are modelled as
Lean structures; the trackings collection is a `List` of such structures, and the
store-level operations (`update_tracking_status`, the dedup lookup of
`handle_url_input`, `get_trackings_to_check`) are pure functions over that list.
Scraping I/O (the fetched page) is abstracted as explicit inputs: the list of
inner texts of the elements matched by the adapter's availability selector, and
the full page content.
-/

namespace Shalev

/-! ## Charwise string utilities (Python `str` operations used by the source) -/

/-- `needle` is a prefix of the first argument (Python `str.startswith`). -/
def startsWithL : List Char → List Char → Bool
  | _, [] => true
  | [], _ :: _ => false
  | c :: cs, d :: ds => c == d && startsWithL cs ds

/-- Python `needle in hay` substring test, charwise. -/
def containsL (needle : List Char) : List Char → Bool
  | [] => startsWithL [] needle
  | l@(_ :: t) => startsWithL l needle || containsL needle t

/-- Python `needle in hay` on `String`s. -/
def strContains (hay needle : String) : Bool :=
  containsL needle.data hay.data

/-- Python `str.lower` (ASCII range; the Hebrew indicators are caseless). -/
def lowerL (l : List Char) : List Char := l.map Char.toLower

/-- Python `str.lower` on `String`. -/
def strLower (s : String) : String := String.mk (lowerL s.data)

/-- Python `str.strip` (ASCII whitespace). -/
def stripL (l : List Char) : List Char :=
  ((l.dropWhile Char.isWhitespace).reverse.dropWhile Char.isWhitespace).reverse

/-- Python `str.strip` on `String`. -/
def strStrip (s : String) : String := String.mk (stripL s.data)

/-- Helper for splitting a char list at every occurrence of `sep`. -/
def splitOnChAux (sep : Char) : List Char → List Char → List (List Char)
  | [], acc => [acc.reverse]
  | c :: rest, acc =>
    if c = sep then acc.reverse :: splitOnChAux sep rest []
    else splitOnChAux sep rest (c :: acc)

/-- Python `str.split(sep)` for a one-character separator. -/
def splitOnCh (sep : Char) (l : List Char) : List (List Char) :=
  splitOnChAux sep l []

/-- Python `str.split(sep, 1)`: split at the first occurrence only;
`none` when the separator does not occur. -/
def splitFirstCh (sep : Char) : List Char → Option (List Char × List Char)
  | [] => none
  | c :: rest =>
    if c = sep then some ([], rest)
    else (splitFirstCh sep rest).map (fun p => (c :: p.1, p.2))

/-- Everything before the first occurrence of `sep` (the whole list when absent). -/
def beforeFirstCh (sep : Char) (l : List Char) : List Char :=
  match splitFirstCh sep l with
  | some p => p.1
  | none => l

/-- The suffix after the first occurrence of the (nonempty) marker string. -/
def afterFirstMarker (marker : List Char) : List Char → Option (List Char)
  | [] => none
  | l@(_ :: t) =>
    if startsWithL l marker then some (l.drop marker.length)
    else afterFirstMarker marker t

/-- Python `' | '.join(texts)` (bot/scrapers join of availability texts). -/
def joinPipe : List String → String
  | [] => ""
  | [s] => s
  | s :: rest => s ++ " | " ++ joinPipe rest

/-! ## Data model (src/database.py) -/

/-- `TrackingStatus` enum, database.py lines 22-28. -/
inductive TrackingStatus
  | active
  | paused
  | out_of_stock
  | in_stock
  | error
  deriving DecidableEq, Repr

/-- `ProductTracking` dataclass, database.py lines 30-57, restricted to the
fields the claims are about.  Timestamps are abstract integers. -/
structure ProductTracking where
  user_id : Nat
  product_url : String
  product_key : Option String
  store_id : String
  check_interval : Int
  status : TrackingStatus
  tracking_mode : String
  last_page_hash : Option String
  change_count : Nat
  last_checked : Option Int
  last_status_change : Option Int
  error_count : Nat
  notification_sent : Bool
  deriving DecidableEq, Repr

/-- Per-store adapter configuration (config.py `SUPPORTED_CLUBS` entry), the
fields read by the availability paths of scrapers.py. -/
structure StoreConfig where
  stock_selector : String
  out_of_stock_indicators : List String
  in_stock_indicators : List String
  strict_availability : Bool
  requires_js : Bool
  deriving DecidableEq, Repr

/-! ## `update_tracking_status` (src/database.py lines 415-459)

A pure rendering of the single MongoDB `update_one`: the `$set` document always
carries `status`, `last_checked`, `error_count` and `notification_sent`
(the last two default to `0` / `False` at the Python call sites that omit
them); `last_page_hash` is written only when the `page_hash` argument is truthy
(not `None` and not the empty string); `change_count` is incremented only when
`change_detected`; `last_status_change` is set only when the stored status
differs from the new one. -/

def updateTrackingStatus (t : ProductTracking) (now : Int)
    (new_status : TrackingStatus) (error_count : Nat)
    (notification_sent : Bool) (page_hash : Option String)
    (change_detected : Bool) : ProductTracking :=
  { t with
    status := new_status
    last_checked := some now
    error_count := error_count
    notification_sent := notification_sent
    last_page_hash :=
      match page_hash with
      | some h => if h = "" then t.last_page_hash else some h
      | none => t.last_page_hash
    change_count := if change_detected then t.change_count + 1 else t.change_count
    last_status_change :=
      if t.status = new_status then t.last_status_change else some now }

/-! ## URL parsing and `get_product_key` (src/scrapers.py lines 56-80)

`urllib.parse.urlparse` restricted to the two components `get_product_key`
reads: `path` and `query`.  The fragment is everything after the first `#`;
the query is everything after the first `?` (before the fragment); the
`scheme://netloc` head, when present, is stripped up to the first `/` after
`://`.  `urllib.parse.parse_qs` splits the query on `&`, each field once on
`=`, percent-decodes (ASCII range) with `+` as space, and drops fields with
no `=` or an empty value (`keep_blank_values=False`); `query[k][0]` is the
first value for `k` in order of appearance. -/

def hexVal (c : Char) : Option Nat :=
  if '0' ≤ c ∧ c ≤ '9' then some (c.toNat - '0'.toNat)
  else if 'a' ≤ c ∧ c ≤ 'f' then some (c.toNat - 'a'.toNat + 10)
  else if 'A' ≤ c ∧ c ≤ 'F' then some (c.toNat - 'A'.toNat + 10)
  else none

/-- Percent-decoding over the ASCII range, with `+` decoded as a space
(`urllib.parse.unquote_plus`; multi-byte UTF-8 escapes are left intact, the
identifier parameters involved are ASCII). -/
def unquotePlusL : List Char → List Char
  | '%' :: a :: b :: rest =>
    match hexVal a, hexVal b with
    | some x, some y =>
      if 16 * x + y < 128 then Char.ofNat (16 * x + y) :: unquotePlusL rest
      else '%' :: a :: b :: unquotePlusL rest
    | _, _ => '%' :: unquotePlusL (a :: b :: rest)
  | '+' :: rest => ' ' :: unquotePlusL rest
  | c :: rest => c :: unquotePlusL rest
  | [] => []

def unquotePlus (s : String) : String := String.mk (unquotePlusL s.data)

/-- The `query` component of `urlparse(url)`. -/
def queryOf (url : String) : String :=
  let noFrag := beforeFirstCh '#' url.data
  match splitFirstCh '?' noFrag with
  | some p => String.mk p.2
  | none => ""

/-- The `path` component of `urlparse(url)`. -/
def pathOf (url : String) : String :=
  let noFrag := beforeFirstCh '#' url.data
  let beforeQ := beforeFirstCh '?' noFrag
  match afterFirstMarker "://".data beforeQ with
  | some rest =>
    match splitFirstCh '/' rest with
    | some p => String.mk ('/' :: p.2)
    | none => ""
  | none => String.mk beforeQ

/-- `parse_qs` as an ordered association list of (key, value) pairs. -/
def parseQsl (qs : String) : List (String × String) :=
  (splitOnCh '&' qs.data).filterMap fun field =>
    match splitFirstCh '=' field with
    | none => none
    | some p =>
      if p.2 = [] then none
      else some (String.mk (unquotePlusL p.1), String.mk (unquotePlusL p.2))

/-- `query[k][0]` — the first value recorded for key `k`, when present. -/
def firstParamValue (qs : String) (key : String) : Option String :=
  (parseQsl qs).findSome? fun p => if p.1 = key then some p.2 else none

/-- The combined Python guard `k in query and query[k] and query[k][0]`:
the key is present and its first value is truthy (nonempty). -/
def truthyFirst (qs : String) (key : String) : Option String :=
  match firstParamValue qs key with
  | some v => if v = "" then none else some v
  | none => none

/-- `re.search(r'/product/(\d+)', path)`: the digit run after the first
occurrence of `/product/` that is immediately followed by a digit. -/
def searchProductId : List Char → Option String
  | [] => none
  | l@(_ :: t) =>
    if startsWithL l "/product/".data then
      let rest := l.drop "/product/".length
      match rest with
      | d :: _ =>
        if d.isDigit then some (String.mk (rest.takeWhile Char.isDigit))
        else searchProductId t
      | [] => searchProductId t
    else searchProductId t

/-- `re.search(r'(\d+)', path)`: the first maximal digit run. -/
def firstDigitRun : List Char → Option String
  | [] => none
  | c :: rest =>
    if c.isDigit then some (String.mk (c :: rest.takeWhile Char.isDigit))
    else firstDigitRun rest

/-- `StockScraper.get_product_key` (scrapers.py lines 56-80): stable product
key for deduplication across URL variants. -/
def get_product_key (url : String) (store_id : String) : Option String :=
  let qs := queryOf url
  let path := pathOf url
  match truthyFirst qs "ite_item" with
  | some v => some ("ite_item:" ++ v)
  | none =>
    match truthyFirst qs "uuid" with
    | some v => some ("uuid:" ++ v)
    | none =>
      match (if store_id = "mashkar" then searchProductId path.data else none) with
      | some d => some ("id:" ++ d)
      | none =>
        match firstDigitRun path.data with
        | some d => some ("id:" ++ d)
        | none => none

/-! ## Availability decisions (src/scrapers.py)

The fetched page is abstracted as the list of inner texts of the elements
matched by the adapter's `stock_selector` (main document and frames combined,
in order) together with the full page content string. -/

/-- The `combined_text` collection step (scrapers.py lines 820-830 and
1027-1037): strip each element text and keep the nonempty ones. -/
def collectTexts (elements : List String) : List String :=
  (elements.map strStrip).filter (fun t => t ≠ "")

/-- Python `any(ind.lower() in text for ind in indicators)`. -/
def anyIndicator (indicators : List String) (text : String) : Bool :=
  indicators.any fun ind => strContains text (strLower ind)

/-- The availability part of `_extract_product_info_playwright`
(scrapers.py lines 792-859), as the internal tri-state `in_stock`
(`some true` / `some false` / `none` = unknown).  When the joined selector
text is nonempty, in-stock indicators are tested first, then out-of-stock,
then `None`-if-strict-else-`True`; when it is empty, a strict adapter yields
`None` and a non-strict adapter scans the page content, out-of-stock
indicators first, defaulting to `True`. -/
def extractInStock (cfg : StoreConfig) (elements : List String)
    (content : String) : Option Bool :=
  let stock_text := if elements.isEmpty then "" else joinPipe (collectTexts elements)
  if stock_text ≠ "" then
    let tl := strLower stock_text
    if anyIndicator cfg.in_stock_indicators tl then some true
    else if anyIndicator cfg.out_of_stock_indicators tl then some false
    else if cfg.strict_availability then none else some true
  else
    if cfg.strict_availability then none
    else
      let cl := strLower content
      if anyIndicator cfg.out_of_stock_indicators cl then some false
      else if anyIndicator cfg.in_stock_indicators cl then some true
      else some true

/-- The `in_stock` field of the `ProductInfo` returned by
`_extract_product_info_playwright` (scrapers.py line 864):
`True if in_stock is None else in_stock` — the internal unknown is collapsed
to `True` in the returned record. -/
def productInfoInStock (cfg : StoreConfig) (elements : List String)
    (content : String) : Bool :=
  match extractInStock cfg elements content with
  | none => true
  | some b => b

/-- `_quick_check_with_playwright` decision (scrapers.py lines 1027-1051),
given the matched elements and the page content.  `elements` nonempty:
in-stock indicators first over the joined lowered texts, then out-of-stock,
then `None`-if-strict-else-`True`.  `elements` empty: `None` if strict, else
content scan (out-of-stock first) defaulting to `True`. -/
def quickCheckPlaywright (cfg : StoreConfig) (elements : List String)
    (content : String) : Option Bool :=
  if elements.isEmpty then
    if cfg.strict_availability then none
    else
      let cl := strLower content
      if anyIndicator cfg.out_of_stock_indicators cl then some false
      else if anyIndicator cfg.in_stock_indicators cl then some true
      else some true
  else
    let joined := strLower (joinPipe (collectTexts elements))
    if anyIndicator cfg.in_stock_indicators joined then some true
    else if anyIndicator cfg.out_of_stock_indicators joined then some false
    else if cfg.strict_availability then none else some true

/-- `_quick_check_with_http` decision (scrapers.py lines 1061-1076) for a
200 response with body `content`: return `False` as soon as any out-of-stock
indicator occurs verbatim (case-sensitive, no selector is consulted and the
strict flag is never read), else `True`. -/
def quickCheckHttp (cfg : StoreConfig) (content : String) : Option Bool :=
  if cfg.out_of_stock_indicators.any (fun ind => strContains content ind) then some false
  else some true

/-- `check_stock_status` (scrapers.py lines 188-199): dispatch on
`requires_js`, given the abstracted page observations. -/
def checkStockStatus (cfg : StoreConfig) (elements : List String)
    (content : String) : Option Bool :=
  if cfg.requires_js then quickCheckPlaywright cfg elements content
  else quickCheckHttp cfg content

/-! ## The `StockScraper` method table (src/scrapers.py class body)

The names of every method defined in `class StockScraper` (scrapers.py lines
31-1327), in source order.  `extract_name` (lines 682, 897) is a local
function nested inside two of these methods, not a method. -/

def stockScraperMethodNames : List String :=
  ["__init__", "get_product_key", "__aenter__", "__aexit__", "init_browser",
   "init_session", "close", "get_product_info", "check_stock_status",
   "get_purchase_options", "_scrape_with_playwright", "_scrape_with_http",
   "_extract_product_info_playwright", "_extract_product_info_soup",
   "_quick_check_with_playwright", "_quick_check_with_http",
   "_fetch_mashkar_product_name_api", "_fetch_mashkar_popup_name",
   "_fetch_name_via_text_proxy", "_check_mashkar_stock",
   "_extract_mashkar_product_id", "_is_invalid_product_name",
   "_sanitize_title", "guess_product_name_from_url", "check_multiple_stocks",
   "get_health_status"]

/-- Whether `self.scraper.check_page_changes` resolves on the `StockScraper`
object: it does not — the attribute lookup at bot.py line 994 raises
`AttributeError`. -/
def stockScraperHasCheckPageChanges : Bool :=
  stockScraperMethodNames.contains "check_page_changes"

/-! ## Per-item check (src/bot.py `_check_single_stock`, lines 982-1087) -/

/-- The dictionary returned by a change check, as consumed by bot.py lines
1000-1038 (`change_type`, `changed`, `current_hash`, optional `new_items`). -/
structure ChangeResult where
  changed : Bool
  change_type : String
  current_hash : Option String
  new_items : List String
  deriving DecidableEq, Repr

/-- bot.py lines 1000-1039: how `_check_single_stock` consumes a
`ChangeResult` in 'changes' mode.  Returns the updated tracking and whether
`_send_change_notification` was invoked. -/
def applyChangeResult (t : ProductTracking) (now : Int)
    (r : ChangeResult) : ProductTracking × Bool :=
  if r.change_type = "error" then
    let ec := t.error_count + 1
    if 5 ≤ ec then
      (updateTrackingStatus t now TrackingStatus.error ec false none false, false)
    else
      (updateTrackingStatus t now t.status ec false none false, false)
  else if r.changed ∧ r.change_type ≠ "initial" then
    (updateTrackingStatus t now TrackingStatus.active 0 true r.current_hash true, true)
  else
    (updateTrackingStatus t now TrackingStatus.active 0 false r.current_hash false, false)

/-- Modelled from the spec: `StockScraper.check_page_changes` is called at
bot.py line 994 but is defined nowhere under src/ (see
`stockScraperMethodNames`).  Spec §4.5: "**changes** (default): compares new
fingerprint to stored one; 'changed' is true only when fingerprints differ
and this is not the item's first successful check (the first check seeds the
baseline and never alerts)".  A fetch/extraction failure is reported as
`change_type = "error"` (spec §4.5: an error never advances fingerprint
state, it only feeds the error-count path).  `fetch` is the fingerprint of
the freshly fetched page, `none` on a fetch/extraction error; `stored` is
the tracking's stored fingerprint. -/
def check_page_changes (fetch : Option String) (stored : Option String) : ChangeResult :=
  match fetch with
  | none => { changed := false, change_type := "error", current_hash := none, new_items := [] }
  | some h =>
    match stored with
    | none => { changed := false, change_type := "initial", current_hash := some h, new_items := [] }
    | some h0 =>
      if h = h0 then
        { changed := false, change_type := "none", current_hash := some h, new_items := [] }
      else
        { changed := true, change_type := "changed", current_hash := some h, new_items := [] }

/-- 'changes'-mode check as specified: bot.py lines 992-1039 composed with
the spec-modelled `check_page_changes`. -/
def checkSingleStockChangesSpec (t : ProductTracking) (now : Int)
    (fetch : Option String) : ProductTracking × Bool :=
  applyChangeResult t now (check_page_changes fetch t.last_page_hash)

/-- 'changes'-mode check as shipped: the attribute lookup
`self.scraper.check_page_changes` fails (`stockScraperHasCheckPageChanges`
is false), the `AttributeError` propagates to the `except` at bot.py lines
1086-1087, which only logs — no `update_tracking_status` call has run and no
notification is sent. -/
def checkSingleStockChangesAsShipped (t : ProductTracking) (now : Int)
    (fetch : Option String) : ProductTracking × Bool :=
  if stockScraperHasCheckPageChanges then checkSingleStockChangesSpec t now fetch
  else (t, false)

/-- Legacy 'stock'-mode check (bot.py lines 1040-1084), given the result of
`check_stock_status` (`none` = error).  Returns the updated tracking and
whether `_send_stock_notification` was invoked. -/
def checkSingleStockLegacy (t : ProductTracking) (now : Int)
    (current_status : Option Bool) : ProductTracking × Bool :=
  match current_status with
  | none =>
    let ec := t.error_count + 1
    if 5 ≤ ec then
      (updateTrackingStatus t now TrackingStatus.error ec false none false, false)
    else
      (updateTrackingStatus t now t.status ec false none false, false)
  | some st =>
    let new_status := if st then TrackingStatus.in_stock else TrackingStatus.out_of_stock
    let should_notify :=
      t.status == TrackingStatus.out_of_stock &&
        new_status == TrackingStatus.in_stock && !t.notification_sent
    (updateTrackingStatus t now new_status 0 should_notify none false, should_notify)

/-- `_check_single_stock` (bot.py lines 982-1087) as shipped: unknown store
id → skip; 'changes' mode → the as-shipped changes path; otherwise the
legacy stock path. -/
def checkSingleStock (t : ProductTracking) (now : Int) (storeKnown : Bool)
    (fetch : Option String) (stockResult : Option Bool) : ProductTracking × Bool :=
  if !storeKnown then (t, false)
  else if t.tracking_mode = "changes" then checkSingleStockChangesAsShipped t now fetch
  else checkSingleStockLegacy t now stockResult

/-! ## Owner actions (src/bot.py) -/

/-- `handle_pause_tracking` (bot.py lines 698-715): a bare
`update_tracking_status(id, PAUSED)` — `error_count` and `notification_sent`
take their Python defaults `0` / `False`. -/
def pauseTracking (t : ProductTracking) (now : Int) : ProductTracking :=
  updateTrackingStatus t now TrackingStatus.paused 0 false none false

/-- `handle_resume_tracking` (bot.py lines 717-734): a bare
`update_tracking_status(id, ACTIVE)`. -/
def resumeTracking (t : ProductTracking) (now : Int) : ProductTracking :=
  updateTrackingStatus t now TrackingStatus.active 0 false none false

/-- The revive branch of `handle_url_input` (bot.py lines 279-291): an owner
re-adds a URL whose tracking is in ERROR; a direct `$set` writes
`status = active`, `error_count = 0`, `notification_sent = False`. -/
def reviveTracking (t : ProductTracking) : ProductTracking :=
  { t with status := TrackingStatus.active, error_count := 0, notification_sent := false }

/-- One operation on a tracking: a scheduled poll (whose branch is chosen by
the tracking's own mode) or an explicit owner action. -/
inductive TrackingOp
  | poll (storeKnown : Bool) (fetch : Option String) (stockResult : Option Bool)
  | pause
  | resume
  | revive
  deriving DecidableEq, Repr

/-- Apply one operation to a tracking. -/
def applyOp (t : ProductTracking) (now : Int) : TrackingOp → ProductTracking
  | TrackingOp.poll sk f r => (checkSingleStock t now sk f r).1
  | TrackingOp.pause => pauseTracking t now
  | TrackingOp.resume => resumeTracking t now
  | TrackingOp.revive => reviveTracking t

/-- Whether an operation is a scheduled poll. -/
def TrackingOp.isPoll : TrackingOp → Bool
  | TrackingOp.poll _ _ _ => true
  | _ => false

/-! ## Scheduler selection (src/database.py `get_trackings_to_check`,
lines 371-413, as called from bot.py line 960 with
`config.DEFAULT_CHECK_INTERVAL`) -/

/-- The Mongo query predicate of `get_trackings_to_check` as MongoDB
evaluates it: `status == 'active'` and
`$or: [last_checked < cutoff, last_checked $exists false]`.
`last_checked = none` models a BSON null: `add_tracking` inserts
`asdict(tracking)`, which always carries `last_checked: None`, so in every
document the program creates the field is present (as null), never missing.
A null value matches neither `$or` branch — `$lt` with a date is
type-bracketed and does not compare null, and `$exists: False` requires the
field to be missing — so a never-checked tracking is not selected. -/
def dueForCheck (cutoff : Int) (t : ProductTracking) : Bool :=
  t.status == TrackingStatus.active &&
    (match t.last_checked with
     | none => false
     | some c => decide (c < cutoff))

/-- `get_trackings_to_check(max_age_minutes)`: `cutoff = now - max_age_minutes`,
`find(query).limit(100)` over the trackings collection in store order. -/
def getTrackingsToCheck (store : List ProductTracking) (now max_age_minutes : Int) :
    List ProductTracking :=
  ((store.filter (dueForCheck (now - max_age_minutes))).take 100)

/-! ## Creation-time dedup (src/bot.py `handle_url_input` lines 267-316,
src/database.py `_create_indexes` / `add_tracking`) -/

/-- The existing-tracking lookup of bot.py lines 273-277:
`find_one({'user_id': uid, '$or': [{'product_url': url}] + ([{'product_key': k,
'store_id': sid}] if k else [])})`. -/
def dedupMatch (uid : Nat) (url : String) (key : Option String) (sid : String)
    (t : ProductTracking) : Bool :=
  t.user_id == uid &&
    (t.product_url == url ||
      (match key with
       | some k => t.product_key == some k && t.store_id == sid
       | none => false))

/-- A freshly created tracking (bot.py lines 356-367 together with
`add_tracking`, database.py lines 269-330): ACTIVE, 'changes' mode, zero
counters, no baseline hash (`initial_hash` is always `None`, since
`ProductInfo` has no `page_hash` attribute). -/
def mkTracking (uid : Nat) (url : String) (sid : String) (interval : Int) :
    ProductTracking :=
  { user_id := uid
    product_url := url
    product_key := get_product_key url sid
    store_id := sid
    check_interval := interval
    status := TrackingStatus.active
    tracking_mode := "changes"
    last_page_hash := none
    change_count := 0
    last_checked := none
    last_status_change := none
    error_count := 0
    notification_sent := false }

/-- The add-tracking flow of `handle_url_input` restricted to dedup: derive
the key, look up an existing tracking; when found, no new record is created
(the revive/duplicate branches update or report it); otherwise append a new
record. -/
def addTrackingFlow (store : List ProductTracking) (uid : Nat) (url : String)
    (sid : String) (interval : Int) : List ProductTracking :=
  let key := get_product_key url sid
  if (store.find? (dedupMatch uid url key sid)).isSome then store
  else store ++ [mkTracking uid url sid interval]

/-! ## Batch runner (src/bot.py `_check_all_stocks` lines 968-977,
src/scrapers.py `check_multiple_stocks` lines 1289-1306) -/

/-- The index sequence of Python `range(0, n, bs)` for `bs > 0`:
`0, bs, 2*bs, …` below `n`. -/
def rangeStep (n bs : Nat) : List Nat :=
  (List.range ((n + bs - 1) / bs)).map (fun i => i * bs)

/-- The batches of `for i in range(0, len(l), bs): batch = l[i:i+bs]`. -/
def batches (bs : Nat) (l : List ProductTracking) : List (List ProductTracking) :=
  (rangeStep l.length bs).map (fun i => (l.drop i).take bs)

/-- One observable event of a poll cycle: a batch of checks run concurrently
by `asyncio.gather`, or an `asyncio.sleep` pause. -/
inductive CycleEvent
  | runBatch (items : List ProductTracking)
  | pauseSecs (n : Nat)
  deriving DecidableEq, Repr

/-- The event trace of `_check_all_stocks` (bot.py lines 968-975):
`batch_size = config.MAX_CONCURRENT_REQUESTS`; for each batch, one
`asyncio.gather` over its items followed by `asyncio.sleep(1)`. -/
def checkAllStocksTrace (bs : Nat) (trackings : List ProductTracking) :
    List CycleEvent :=
  (batches bs trackings).flatMap (fun b => [CycleEvent.runBatch b, CycleEvent.pauseSecs 1])

/-! ## Shared concrete samples (used by witnesses and counterexamples) -/

/-- A stock-mode tracking currently out of stock with no alert sent. -/
def sampleOOS : ProductTracking :=
  { user_id := 7
    product_url := "https://www.hot.net.il/item42"
    product_key := some "id:42"
    store_id := "hot"
    check_interval := 60
    status := TrackingStatus.out_of_stock
    tracking_mode := "stock"
    last_page_hash := none
    change_count := 0
    last_checked := none
    last_status_change := none
    error_count := 0
    notification_sent := false }

/-- A changes-mode ACTIVE tracking with no stored fingerprint yet. -/
def sampleChanges : ProductTracking :=
  { user_id := 8
    product_url := "https://x.co/p?ite_item=123"
    product_key := some "ite_item:123"
    store_id := "hot"
    check_interval := 60
    status := TrackingStatus.active
    tracking_mode := "changes"
    last_page_hash := none
    change_count := 0
    last_checked := none
    last_status_change := none
    error_count := 0
    notification_sent := false }

/-- A strict-availability adapter configuration (the `strict_availability`
flag read at scrapers.py lines 796, 1006; no selector match on the page is
modelled as `elements = []`). -/
def cfgStrictSample : StoreConfig :=
  { stock_selector := ".stock-status"
    out_of_stock_indicators := ["sold out"]
    in_stock_indicators := ["in stock"]
    strict_availability := true
    requires_js := false }

/-! ## C1 — changes mode: first check seeds, later differing checks alert -/

/-- C1: for a changes-mode tracking, the scheduled per-item check (bot.py
lines 992-1039 composed with the spec-modelled `check_page_changes`) never
notifies on the item's first successful check — it only seeds the stored
fingerprint — and it notifies on every subsequent successful check whose
fingerprint differs from the stored one (also advancing the stored
fingerprint). -/
theorem changes_mode_first_seeds_then_alerts (t : ProductTracking) (now : Int)
    (h : String) (hne : h ≠ "") :
    (t.last_page_hash = none →
      (checkSingleStockChangesSpec t now (some h)).2 = false ∧
      (checkSingleStockChangesSpec t now (some h)).1.last_page_hash = some h) ∧
    (∀ h0, t.last_page_hash = some h0 → h ≠ h0 →
      (checkSingleStockChangesSpec t now (some h)).2 = true ∧
      (checkSingleStockChangesSpec t now (some h)).1.last_page_hash = some h) := by
  constructor
  · intro hnone
    simp [checkSingleStockChangesSpec, check_page_changes, hnone, applyChangeResult,
      updateTrackingStatus, hne]
  · intro h0 hsome hdiff
    simp [checkSingleStockChangesSpec, check_page_changes, hsome, hdiff, applyChangeResult,
      updateTrackingStatus, hne]

/-- C1 witness: a concrete changes-mode tracking; first check with
fingerprint "h1" seeds and does not alert; once the baseline is "h0", a
check with differing fingerprint "h1" alerts. -/
theorem changes_mode_first_seeds_then_alerts_witness :
    ((checkSingleStockChangesSpec sampleChanges 5 (some "h1")).2 = false ∧
      (checkSingleStockChangesSpec sampleChanges 5 (some "h1")).1.last_page_hash = some "h1") ∧
    ((checkSingleStockChangesSpec { sampleChanges with last_page_hash := some "h0" } 6 (some "h1")).2 = true ∧
      (checkSingleStockChangesSpec { sampleChanges with last_page_hash := some "h0" } 6 (some "h1")).1.last_page_hash = some "h1") := by
  refine ⟨?_, ?_⟩
  · exact (changes_mode_first_seeds_then_alerts sampleChanges 5 "h1" (by decide)).1 (by decide)
  · exact (changes_mode_first_seeds_then_alerts { sampleChanges with last_page_hash := some "h0" } 6 "h1"
      (by decide)).2 "h0" (by decide) (by decide)

/-! ## C2 — changes mode as shipped: the scheduled check is a no-op -/

/-- C2: for a 'changes'-mode tracking, one execution of
`_check_single_stock` as shipped performs no store update and sends no
notification — the `check_page_changes` attribute is missing from
`StockScraper`, and the resulting exception is caught and only logged
(bot.py lines 1086-1087) — so the whole record, in particular error_count,
status, last_checked, last_page_hash and notification_sent, keeps its prior
value. -/
theorem changes_mode_check_is_noop (t : ProductTracking) (now : Int)
    (storeKnown : Bool) (fetch : Option String) (stockResult : Option Bool)
    (hmode : t.tracking_mode = "changes") :
    checkSingleStock t now storeKnown fetch stockResult = (t, false) := by
  cases storeKnown with
  | false => simp [checkSingleStock]
  | true =>
    simp [checkSingleStock, hmode, checkSingleStockChangesAsShipped,
      stockScraperHasCheckPageChanges, stockScraperMethodNames]

/-- C2 witness: the concrete changes-mode tracking is untouched by a
scheduled check even when a fresh fingerprint was fetchable. -/
theorem changes_mode_check_is_noop_witness :
    checkSingleStock sampleChanges 5 true (some "h1") none = (sampleChanges, false) :=
  changes_mode_check_is_noop sampleChanges 5 true (some "h1") none (by decide)

/-! ## C3 — error_count / ERROR-status state machine -/

/-- An operation is a failed poll for tracking `t`: the store is known, the
tracking is on the legacy stock path (a 'changes'-mode poll as shipped is a
no-op and cannot fail), and `check_stock_status` returned `None`. -/
def TrackingOp.isFailedPollFor (t : ProductTracking) : TrackingOp → Bool
  | TrackingOp.poll sk _ r =>
    sk && !(t.tracking_mode == "changes") && r == none
  | _ => false

/-- An operation that leaves the tracking record untouched: a poll with an
unknown store id, or any poll of a 'changes'-mode tracking (as shipped). -/
def TrackingOp.isNoopFor (t : ProductTracking) : TrackingOp → Bool
  | TrackingOp.poll sk _ _ => !sk || t.tracking_mode == "changes"
  | _ => false

/-- C3 counterexample: the claim says error_count "is reset to 0 only by a
successful poll (or an explicit revive)", but `handle_pause_tracking`
(bot.py lines 698-715) calls `update_tracking_status(id, PAUSED)` whose
`error_count` parameter defaults to `0` (database.py line 416): pausing a
tracking with error_count = 3 writes error_count = 0, and pause is neither a
poll nor a revive. -/
theorem pause_resets_error_count_counterexample :
    ({ sampleOOS with status := TrackingStatus.active, error_count := 3 } : ProductTracking).error_count = 3 ∧
    (TrackingOp.pause.isPoll = false ∧ TrackingOp.pause ≠ TrackingOp.revive) ∧
    (applyOp { sampleOOS with status := TrackingStatus.active, error_count := 3 } 9
      TrackingOp.pause).error_count = 0 := by
  decide

/-- C3 amended: error_count after one operation is `t.error_count + 1`
exactly on a failed poll, is unchanged by a no-op poll (unknown store or
'changes' mode), and is written to 0 by every other operation — a successful
poll, a revive, and also the owner pause/resume actions, whose
`update_tracking_status` call lets `error_count` default to 0.  A
non-ERROR tracking transitions to ERROR exactly when a failed poll takes its
error_count to 5 or more.  The scheduler query only ever selects ACTIVE
trackings, so an ERROR status never changes without an explicit owner
action. -/
theorem error_count_state_machine (t : ProductTracking) (now : Int)
    (op : TrackingOp) (store : List ProductTracking) (maxAge : Int)
    (u : ProductTracking)
    (hne : t.status ≠ TrackingStatus.error)
    (hu : u ∈ getTrackingsToCheck store now maxAge) :
    ((applyOp t now op).error_count =
      (if op.isFailedPollFor t then t.error_count + 1
       else if op.isNoopFor t then t.error_count else 0)) ∧
    ((applyOp t now op).status = TrackingStatus.error ↔
      (op.isFailedPollFor t = true ∧ 5 ≤ t.error_count + 1)) ∧
    u.status = TrackingStatus.active := by
  refine ⟨?_, ?_, ?_⟩
  · cases op with
    | poll sk f r =>
      cases sk with
      | false => simp [applyOp, checkSingleStock, TrackingOp.isFailedPollFor, TrackingOp.isNoopFor]
      | true =>
        by_cases hm : t.tracking_mode = "changes"
        · simp [applyOp, checkSingleStock, hm, checkSingleStockChangesAsShipped,
            stockScraperHasCheckPageChanges, stockScraperMethodNames,
            TrackingOp.isFailedPollFor, TrackingOp.isNoopFor]
        · cases r with
          | none =>
            by_cases h5 : 5 ≤ t.error_count + 1 <;>
              simp [applyOp, checkSingleStock, hm, checkSingleStockLegacy, h5,
                updateTrackingStatus, TrackingOp.isFailedPollFor, TrackingOp.isNoopFor]
          | some st =>
            simp [applyOp, checkSingleStock, hm, checkSingleStockLegacy,
              updateTrackingStatus, TrackingOp.isFailedPollFor, TrackingOp.isNoopFor]
    | pause => simp [applyOp, pauseTracking, updateTrackingStatus,
        TrackingOp.isFailedPollFor, TrackingOp.isNoopFor]
    | resume => simp [applyOp, resumeTracking, updateTrackingStatus,
        TrackingOp.isFailedPollFor, TrackingOp.isNoopFor]
    | revive => simp [applyOp, reviveTracking,
        TrackingOp.isFailedPollFor, TrackingOp.isNoopFor]
  · cases op with
    | poll sk f r =>
      cases sk with
      | false =>
        simp [applyOp, checkSingleStock, TrackingOp.isFailedPollFor]
        exact fun h => absurd h hne
      | true =>
        by_cases hm : t.tracking_mode = "changes"
        · simp [applyOp, checkSingleStock, hm, checkSingleStockChangesAsShipped,
            stockScraperHasCheckPageChanges, stockScraperMethodNames,
            TrackingOp.isFailedPollFor]
          exact fun h => absurd h hne
        · cases r with
          | none =>
            by_cases h5 : 5 ≤ t.error_count + 1
            · simp [applyOp, checkSingleStock, hm, checkSingleStockLegacy, h5,
                updateTrackingStatus, TrackingOp.isFailedPollFor]
            · simp [applyOp, checkSingleStock, hm, checkSingleStockLegacy, h5,
                updateTrackingStatus, TrackingOp.isFailedPollFor]
              exact fun h => absurd h hne
          | some st =>
            cases st <;>
              simp [applyOp, checkSingleStock, hm, checkSingleStockLegacy,
                updateTrackingStatus, TrackingOp.isFailedPollFor]
    | pause => simp [applyOp, pauseTracking, updateTrackingStatus, TrackingOp.isFailedPollFor]
    | resume => simp [applyOp, resumeTracking, updateTrackingStatus, TrackingOp.isFailedPollFor]
    | revive => simp [applyOp, reviveTracking, TrackingOp.isFailedPollFor]
  · have hmem : u ∈ store.filter (dueForCheck (now - maxAge)) :=
      List.mem_of_mem_take (by simpa [getTrackingsToCheck] using hu)
    have hdue : dueForCheck (now - maxAge) u = true := List.of_mem_filter hmem
    have := (Bool.and_eq_true _ _).mp hdue
    exact beq_iff_eq.mp this.1

/-- C3 witness: the amended state-machine characterization applied to a
concrete ACTIVE tracking with error_count 3, the pause operation, and a
concrete one-element trackings collection. -/
theorem error_count_state_machine_witness :
    ((applyOp { sampleOOS with status := TrackingStatus.active, error_count := 3 } 9
        TrackingOp.pause).error_count =
      (if TrackingOp.pause.isFailedPollFor
            { sampleOOS with status := TrackingStatus.active, error_count := 3 } then 3 + 1
       else if TrackingOp.pause.isNoopFor
            { sampleOOS with status := TrackingStatus.active, error_count := 3 } then 3 else 0)) ∧
    ((applyOp { sampleOOS with status := TrackingStatus.active, error_count := 3 } 9
        TrackingOp.pause).status = TrackingStatus.error ↔
      (TrackingOp.pause.isFailedPollFor
          { sampleOOS with status := TrackingStatus.active, error_count := 3 } = true ∧
        5 ≤ 3 + 1)) ∧
    ({ sampleChanges with last_checked := some (-100) } : ProductTracking).status =
      TrackingStatus.active :=
  error_count_state_machine
    { sampleOOS with status := TrackingStatus.active, error_count := 3 } 9
    TrackingOp.pause [{ sampleChanges with last_checked := some (-100) }] 60
    { sampleChanges with last_checked := some (-100) } (by decide) (by decide)

/-! ## C4 — stock mode: alert exactly on OUT_OF_STOCK → IN_STOCK, once -/

/-- C4: on the legacy stock path (bot.py lines 1040-1084) a notification is
sent on a poll if and only if the stored status is OUT_OF_STOCK, the poll
observed in-stock, and notification_sent is false; and after such an
alerting poll, a second poll that still observes in-stock keeps the status
IN_STOCK and sends no second notification. -/
theorem stock_mode_alert_exactly_on_transition (t : ProductTracking)
    (now now2 : Int) (r : Option Bool) :
    ((checkSingleStockLegacy t now r).2 = true ↔
      (t.status = TrackingStatus.out_of_stock ∧ r = some true ∧
        t.notification_sent = false)) ∧
    (t.status = TrackingStatus.out_of_stock → t.notification_sent = false →
      (checkSingleStockLegacy t now (some true)).2 = true ∧
      (checkSingleStockLegacy t now (some true)).1.status = TrackingStatus.in_stock ∧
      (checkSingleStockLegacy (checkSingleStockLegacy t now (some true)).1 now2
          (some true)).1.status = TrackingStatus.in_stock ∧
      (checkSingleStockLegacy (checkSingleStockLegacy t now (some true)).1 now2
          (some true)).2 = false) := by
  constructor
  · cases r with
    | none =>
      by_cases h5 : 5 ≤ t.error_count + 1 <;>
        simp [checkSingleStockLegacy, h5, updateTrackingStatus]
    | some st =>
      cases st with
      | false => simp [checkSingleStockLegacy, updateTrackingStatus]
      | true =>
        simp [checkSingleStockLegacy, updateTrackingStatus]
  · intro hoos hns
    simp [checkSingleStockLegacy, updateTrackingStatus, hoos, hns]

/-- C4 witness: the concrete out-of-stock tracking alerts on the in-stock
poll, and a repeat in-stock poll keeps IN_STOCK without a second alert. -/
theorem stock_mode_alert_exactly_on_transition_witness :
    (((checkSingleStockLegacy sampleOOS 5 (some true)).2 = true ↔
      (sampleOOS.status = TrackingStatus.out_of_stock ∧ (some true : Option Bool) = some true ∧
        sampleOOS.notification_sent = false)) ∧
    ((checkSingleStockLegacy sampleOOS 5 (some true)).2 = true ∧
      (checkSingleStockLegacy sampleOOS 5 (some true)).1.status = TrackingStatus.in_stock ∧
      (checkSingleStockLegacy (checkSingleStockLegacy sampleOOS 5 (some true)).1 6
          (some true)).1.status = TrackingStatus.in_stock ∧
      (checkSingleStockLegacy (checkSingleStockLegacy sampleOOS 5 (some true)).1 6
          (some true)).2 = false)) :=
  ⟨(stock_mode_alert_exactly_on_transition sampleOOS 5 6 (some true)).1,
    (stock_mode_alert_exactly_on_transition sampleOOS 5 6 (some true)).2
      (by decide) (by decide)⟩

/-! ## C5 — strict availability: "unknown" is not uniform across paths -/

/-- C5 counterexample: for a strict-availability adapter and a page with no
availability-selector match, the claim says every check path reports
"unknown" and stock mode never treats the result as in-stock.  But
`_quick_check_with_http` (scrapers.py lines 1061-1076) never consults the
selector or the strict flag and returns `True` (in stock) for a page body
with no out-of-stock keyword, and `_extract_product_info_playwright`
(line 864) collapses the internal unknown into `in_stock=True` in the
returned `ProductInfo`. -/
theorem strict_unknown_counterexample :
    quickCheckHttp cfgStrictSample "hello page" = some true ∧
    extractInStock cfgStrictSample [] "whatever" = none ∧
    productInfoInStock cfgStrictSample [] "whatever" = true := by
  decide

/-- C5 amended: with the strict flag set and no element matching the
availability selector, the Playwright quick-check path does report unknown
(`None`), and on the legacy stock path a `None` check result feeds the
error-count branch — the new status is ERROR or the prior status, never a
fresh IN_STOCK; but the HTTP quick-check path ignores the strict flag and
reports in-stock whenever no out-of-stock keyword occurs verbatim in the
page body, and the full product-info path collapses its internal unknown to
`in_stock=True` in the returned `ProductInfo`. -/
theorem strict_unknown_per_path (cfg : StoreConfig) (content : String)
    (t : ProductTracking) (now : Int)
    (hstrict : cfg.strict_availability = true)
    (hnokw : ∀ ind ∈ cfg.out_of_stock_indicators, strContains content ind = false) :
    quickCheckPlaywright cfg [] content = none ∧
    extractInStock cfg [] content = none ∧
    productInfoInStock cfg [] content = true ∧
    quickCheckHttp cfg content = some true ∧
    ((checkSingleStockLegacy t now none).1.status =
      (if 5 ≤ t.error_count + 1 then TrackingStatus.error else t.status)) := by
  refine ⟨?_, ?_, ?_, ?_, ?_⟩
  · simp [quickCheckPlaywright, hstrict]
  · simp [extractInStock, hstrict]
  · simp [productInfoInStock, extractInStock, hstrict]
  · have : cfg.out_of_stock_indicators.any (fun ind => strContains content ind) = false := by
      simp only [List.any_eq_false]
      intro ind hind
      simp [hnokw ind hind]
    simp [quickCheckHttp, this]
  · by_cases h5 : 5 ≤ t.error_count + 1 <;>
      simp [checkSingleStockLegacy, h5, updateTrackingStatus]

/-- C5 amended witness: the per-path behavior at the concrete strict
adapter, a keyword-free page, and a concrete tracking with error_count 0. -/
theorem strict_unknown_per_path_witness :
    quickCheckPlaywright cfgStrictSample [] "hello page" = none ∧
    extractInStock cfgStrictSample [] "hello page" = none ∧
    productInfoInStock cfgStrictSample [] "hello page" = true ∧
    quickCheckHttp cfgStrictSample "hello page" = some true ∧
    ((checkSingleStockLegacy sampleOOS 5 none).1.status =
      (if 5 ≤ sampleOOS.error_count + 1 then TrackingStatus.error else sampleOOS.status)) :=
  strict_unknown_per_path cfgStrictSample "hello page" sampleOOS 5 (by decide)
    (by decide)

/-! ## C6 — when both keyword lists match, which one wins? -/

/-- C6 counterexample: the claim says an out-of-stock keyword match wins
over an in-stock keyword match on both paths, i.e. the decision should be
out-of-stock (`some false`).  But both `_extract_product_info_playwright`
(scrapers.py lines 834-836) and `_quick_check_with_playwright` (lines
1038-1041) test the in-stock list first: on a selector text containing both
"sold out" and "in stock" the decision is in-stock (`some true`). -/
theorem keyword_priority_counterexample :
    extractInStock cfgStrictSample ["sold out in stock"] "" = some true ∧
    quickCheckPlaywright cfgStrictSample ["sold out in stock"] "" = some true := by
  decide

/-- C6 amended: on both the full extraction path and the Playwright
quick-check path, the in-stock keyword match wins over the out-of-stock
keyword match: when the collected lowered selector text matches the in-stock
list the decision is in-stock even if it also matches the out-of-stock list,
and the decision is out-of-stock only when the in-stock list does not match. -/
theorem in_stock_keyword_wins (cfg : StoreConfig) (elements : List String)
    (content : String)
    (hne : elements ≠ [])
    (hjoin : joinPipe (collectTexts elements) ≠ "") :
    (anyIndicator cfg.in_stock_indicators
        (strLower (joinPipe (collectTexts elements))) = true →
      extractInStock cfg elements content = some true ∧
      quickCheckPlaywright cfg elements content = some true) ∧
    (anyIndicator cfg.in_stock_indicators
        (strLower (joinPipe (collectTexts elements))) = false →
      anyIndicator cfg.out_of_stock_indicators
        (strLower (joinPipe (collectTexts elements))) = true →
      extractInStock cfg elements content = some false ∧
      quickCheckPlaywright cfg elements content = some false) := by
  have hne' : elements.isEmpty = false := by
    cases elements with
    | nil => exact absurd rfl hne
    | cons a l => rfl
  constructor
  · intro hin
    constructor
    · simp [extractInStock, hne', hjoin, hin]
    · simp [quickCheckPlaywright, hne', hin]
  · intro hin hout
    constructor
    · simp [extractInStock, hne', hjoin, hin, hout]
    · simp [quickCheckPlaywright, hne', hin, hout]

/-- C6 amended witness: at the concrete adapter, a selector text matching
both lists decides in-stock, and one matching only the out-of-stock list
decides out-of-stock, on both paths. -/
theorem in_stock_keyword_wins_witness :
    (extractInStock cfgStrictSample ["sold out in stock"] "" = some true ∧
      quickCheckPlaywright cfgStrictSample ["sold out in stock"] "" = some true) ∧
    (extractInStock cfgStrictSample ["sold out"] "" = some false ∧
      quickCheckPlaywright cfgStrictSample ["sold out"] "" = some false) :=
  ⟨(in_stock_keyword_wins cfgStrictSample ["sold out in stock"] "" (by decide)
      (by decide)).1 (by decide),
    (in_stock_keyword_wins cfgStrictSample ["sold out"] "" (by decide)
      (by decide)).2 (by decide) (by decide)⟩

/-! ## C7 — dedup identity -/

/-- C7: the dedup lookup of `handle_url_input`.  (i) The owner is always
part of the identity: a record of another owner never matches, so two
owners adding the identical URL always end with two independent records.
(ii) When a product key is derivable, any URL variant with the same derived
key and site matches the stored record, so a second variant adds no record.
(iii) When no key is derivable, the match is exactly (owner, exact URL). -/
theorem dedup_identity (uid uid2 : Nat) (url url2 url3 sid : String)
    (interval : Int) (t : ProductTracking) (k : String)
    (hneq : uid ≠ uid2)
    (hk1 : get_product_key url sid = some k)
    (hk2 : get_product_key url2 sid = some k)
    (hk3 : get_product_key url3 sid = none) :
    (t.user_id ≠ uid → dedupMatch uid url (get_product_key url sid) sid t = false) ∧
    ((addTrackingFlow (addTrackingFlow [] uid url sid interval) uid2 url sid interval).length = 2) ∧
    ((addTrackingFlow (addTrackingFlow [] uid url sid interval) uid url2 sid interval).length = 1) ∧
    (dedupMatch uid url3 (get_product_key url3 sid) sid t = true ↔
      (t.user_id = uid ∧ t.product_url = url3)) := by
  refine ⟨?_, ?_, ?_, ?_⟩
  · intro hne
    simp [dedupMatch, hne]
  · have hb : (uid == uid2) = false := beq_eq_false_iff_ne.mpr hneq
    simp [addTrackingFlow, mkTracking, dedupMatch, List.find?, hb]
  · simp [addTrackingFlow, mkTracking, dedupMatch, List.find?, hk1, hk2]
  · rw [hk3]
    simp [dedupMatch]

/-- C7 witness: owners 1 and 2 with the identical keyed URL end with two
records; owner 1 adding two URL variants sharing `ite_item=123` ends with
one; for a key-less URL the match is exactly owner + exact URL. -/
theorem dedup_identity_witness :
    (sampleOOS.user_id ≠ 1 →
      dedupMatch 1 "https://x.co/p?ite_item=123&a=1"
        (get_product_key "https://x.co/p?ite_item=123&a=1" "hot") "hot" sampleOOS = false) ∧
    ((addTrackingFlow
        (addTrackingFlow [] 1 "https://x.co/p?ite_item=123&a=1" "hot" 60)
        2 "https://x.co/p?ite_item=123&a=1" "hot" 60).length = 2) ∧
    ((addTrackingFlow
        (addTrackingFlow [] 1 "https://x.co/p?ite_item=123&a=1" "hot" 60)
        1 "https://x.co/p2?b=2&ite_item=123" "hot" 60).length = 1) ∧
    (dedupMatch 1 "https://x.co/abc" (get_product_key "https://x.co/abc" "hot") "hot"
        sampleOOS = true ↔
      (sampleOOS.user_id = 1 ∧ sampleOOS.product_url = "https://x.co/abc")) :=
  dedup_identity 1 2 "https://x.co/p?ite_item=123&a=1" "https://x.co/p2?b=2&ite_item=123"
    "https://x.co/abc" "hot" 60 sampleOOS "ite_item:123"
    (by decide) (by decide) (by decide) (by decide)

/-! ## C8 — product key purity and stability across URL variants -/

/-- C8: `get_product_key` is a pure total function of `(url, store_id)` —
equal inputs trivially give equal keys — and for each recognized identifier
query parameter (scrapers.py lines 63-66: `ite_item`, then `uuid` when
`ite_item` is absent), any two URLs that carry the same (truthy) first value
for that identifier get the identical key (`"ite_item:" ++ v`, respectively
`"uuid:" ++ w`), regardless of every other query parameter — so URL
variants differing only in unrelated query parameters share one key.
(URLs differing only in *unrelated* parameters agree on whether `ite_item`
is present, hence the `ite_item`-absent hypotheses of the `uuid` case.) -/
theorem product_key_pure_and_stable (u1 u2 w1 w2 sid : String) (v w : String)
    (h1 : truthyFirst (queryOf u1) "ite_item" = some v)
    (h2 : truthyFirst (queryOf u2) "ite_item" = some v)
    (hw1 : truthyFirst (queryOf w1) "ite_item" = none)
    (hw2 : truthyFirst (queryOf w2) "ite_item" = none)
    (hu1 : truthyFirst (queryOf w1) "uuid" = some w)
    (hu2 : truthyFirst (queryOf w2) "uuid" = some w) :
    (∀ url store_id : String, get_product_key url store_id = get_product_key url store_id) ∧
    get_product_key u1 sid = some ("ite_item:" ++ v) ∧
    get_product_key u1 sid = get_product_key u2 sid ∧
    get_product_key w1 sid = some ("uuid:" ++ w) ∧
    get_product_key w1 sid = get_product_key w2 sid := by
  refine ⟨fun _ _ => rfl, ?_, ?_, ?_, ?_⟩
  · simp [get_product_key, h1]
  · simp [get_product_key, h1, h2]
  · simp [get_product_key, hw1, hu1]
  · simp [get_product_key, hw1, hw2, hu1, hu2]

/-- C8 witness: two URLs sharing `ite_item=123` but differing in their other
query parameters and paths both map to key "ite_item:123", and two
`ite_item`-free URLs sharing `uuid=ab-12` both map to key "uuid:ab-12". -/
theorem product_key_pure_and_stable_witness :
    (∀ url store_id : String, get_product_key url store_id = get_product_key url store_id) ∧
    get_product_key "https://x.co/p?ite_item=123&a=1" "hot" = some ("ite_item:" ++ "123") ∧
    get_product_key "https://x.co/p?ite_item=123&a=1" "hot" =
      get_product_key "https://x.co/p2?b=2&ite_item=123&c=3" "hot" ∧
    get_product_key "https://x.co/q?uuid=ab-12&a=1" "hot" = some ("uuid:" ++ "ab-12") ∧
    get_product_key "https://x.co/q?uuid=ab-12&a=1" "hot" =
      get_product_key "https://x.co/q2?b=2&uuid=ab-12" "hot" :=
  product_key_pure_and_stable "https://x.co/p?ite_item=123&a=1"
    "https://x.co/p2?b=2&ite_item=123&c=3" "https://x.co/q?uuid=ab-12&a=1"
    "https://x.co/q2?b=2&uuid=ab-12" "hot" "123" "ab-12"
    (by decide) (by decide) (by decide) (by decide) (by decide) (by decide)

/-! ## C9 — scheduler selection: the "or absent" branch never fires -/

/-- C9: the claim (and spec section 4.7) says trackings with absent
`last_checked` are selected, and the query's `$exists: False` branch
(database.py line 380) shows that intent — but `add_tracking` stores
`asdict(tracking)`, so every document carries `last_checked` as an explicit
null, which matches neither the type-bracketed `$lt` nor `$exists: False`.
Evaluating the code at the failing input: the record `add_tracking` creates
for a fresh tracking is ACTIVE with null `last_checked`, yet
`get_trackings_to_check` does not select it; the same tracking with a stale
`last_checked` date is selected, and a non-ACTIVE tracking is not. -/
theorem never_checked_tracking_not_selected :
    (mkTracking 1 "https://www.hot.net.il/item42" "hot" 60).status =
      TrackingStatus.active ∧
    (mkTracking 1 "https://www.hot.net.il/item42" "hot" 60).last_checked = none ∧
    getTrackingsToCheck [mkTracking 1 "https://www.hot.net.il/item42" "hot" 60]
      100 60 = [] ∧
    getTrackingsToCheck
      [{ mkTracking 1 "https://www.hot.net.il/item42" "hot" 60 with
          last_checked := some 0 }, sampleOOS] 100 60 =
      [{ mkTracking 1 "https://www.hot.net.il/item42" "hot" 60 with
          last_checked := some 0 }] := by
  decide

/-! ## C10 — batch runner helper lemmas -/

/-- Iteration count of `range(0, n, bs)`: for `n ≥ 1, bs ≥ 1` it is
`(n-1)/bs + 1`. -/
lemma rangeStepCount (n bs : Nat) (hn : 0 < n) (hbs : 0 < bs) :
    (n + bs - 1) / bs = (n - 1) / bs + 1 := by
  have h1 : n + bs - 1 = (n - 1) + bs := by omega
  rw [h1, Nat.add_div_right _ hbs]

/-- The iteration count peels off one batch: the count for `n` items is one
more than the count for the remaining `n - bs` items. -/
lemma rangeStepCountTail (n bs : Nat) (hn : 0 < n) (hbs : 0 < bs) :
    (n + bs - 1) / bs = ((n - bs) + bs - 1) / bs + 1 := by
  rw [rangeStepCount n bs hn hbs]
  by_cases h : n ≤ bs
  · have h2 : n - bs = 0 := by omega
    rw [h2]
    have h3 : (0 + bs - 1) / bs = 0 := Nat.div_eq_of_lt (by omega)
    have h4 : (n - 1) / bs = 0 := Nat.div_eq_of_lt (by omega)
    rw [h3, h4]
  · have h5 : 0 < n - bs := by omega
    rw [rangeStepCount (n - bs) bs h5 hbs]
    have h6 : n - 1 = (n - bs - 1) + bs := by omega
    rw [h6, Nat.add_div_right _ hbs]

/-- `batches` on the empty list is empty (`range(0, 0, bs)` is empty). -/
lemma batches_nil (bs : Nat) : batches bs [] = [] := by
  unfold batches rangeStep
  have h : (List.length ([] : List ProductTracking) + bs - 1) / bs = 0 := by
    cases bs with
    | zero => rfl
    | succ n =>
      simp only [List.length_nil]
      exact Nat.div_eq_of_lt (by omega)
  rw [h]
  rfl

/-- `batches` peels off the first slice: for a nonempty list it is
`l[0:bs]` followed by the batches of `l[bs:]` — exactly the Python loop. -/
lemma batches_cons (bs : Nat) (hbs : 0 < bs) (l : List ProductTracking)
    (hl : l ≠ []) :
    batches bs l = l.take bs :: batches bs (l.drop bs) := by
  have hn : 0 < l.length := List.length_pos.mpr hl
  unfold batches rangeStep
  rw [List.length_drop, rangeStepCountTail l.length bs hn hbs,
    List.range_succ_eq_map]
  simp only [List.map_cons, List.map_map, Nat.zero_mul, List.drop_zero]
  congr 1
  apply List.map_congr_left
  intro i _
  simp only [Function.comp]
  rw [List.drop_drop]
  congr 2
  rw [Nat.succ_mul]
  ring

/-- Joining the batches restores the original list. -/
lemma batches_join (bs : Nat) (hbs : 0 < bs) (l : List ProductTracking) :
    (batches bs l).flatten = l := by
  have key : ∀ n (l : List ProductTracking), l.length ≤ n → (batches bs l).flatten = l := by
    intro n
    induction n with
    | zero =>
      intro l hl
      have : l = [] := List.eq_nil_of_length_eq_zero (by omega)
      subst this
      simp [batches_nil]
    | succ n ih =>
      intro l hl
      rcases eq_or_ne l [] with rfl | hne
      · simp [batches_nil]
      · rw [batches_cons bs hbs l hne]
        have hlen : (l.drop bs).length ≤ n := by
          have h1 : 0 < l.length := List.length_pos.mpr hne
          have h2 : (l.drop bs).length = l.length - bs := List.length_drop bs l
          omega
        simp only [List.flatten_cons, ih (l.drop bs) hlen]
        exact List.take_append_drop bs l
  exact key l.length l le_rfl

/-- In the `[batch, pause]` interleaving, position `2i` holds the `i`-th
batch event and position `2i+1` the pause after it. -/
lemma pairsTraceGet (f : List ProductTracking → CycleEvent) (d : CycleEvent) :
    ∀ (bl : List (List ProductTracking)) (i : Nat),
      ((bl.flatMap (fun b => [f b, d])).get? (2 * i) = (bl.get? i).map f ∧
        (bl.flatMap (fun b => [f b, d])).get? (2 * i + 1) =
          (bl.get? i).map (fun _ => d)) := by
  intro bl
  induction bl with
  | nil => intro i; simp
  | cons b rest ih =>
    intro i
    have hexp : (b :: rest).flatMap (fun x => [f x, d]) =
        f b :: d :: rest.flatMap (fun x => [f x, d]) := by simp
    cases i with
    | zero => rw [hexp]; exact ⟨rfl, rfl⟩
    | succ j =>
      rw [hexp]
      constructor
      · rw [show 2 * (j + 1) = 2 * j + 1 + 1 by ring]
        exact (ih j).1
      · rw [show 2 * (j + 1) + 1 = (2 * j + 1) + 1 + 1 by ring]
        exact (ih j).2

/-- C10: with a positive concurrency ceiling `bs`
(`config.MAX_CONCURRENT_REQUESTS`), `_check_all_stocks` partitions the due
trackings into batches that never exceed `bs`, loses and duplicates nothing
(the batches join back to the input), and its event trace places a pause
event directly after every batch event — so a pause separates every two
consecutive batches; `check_multiple_stocks` (scrapers.py line 1291) uses
batch size `min(bs, 5)`, also never exceeding `bs`. -/
theorem batch_runner_bounded (bs : Nat) (l : List ProductTracking)
    (hbs : 0 < bs) :
    (∀ b ∈ batches bs l, b.length ≤ bs) ∧
    ((batches bs l).flatten = l) ∧
    (∀ i, (checkAllStocksTrace bs l).get? (2 * i) =
        ((batches bs l).get? i).map CycleEvent.runBatch ∧
      (checkAllStocksTrace bs l).get? (2 * i + 1) =
        ((batches bs l).get? i).map (fun _ => CycleEvent.pauseSecs 1)) ∧
    (∀ b ∈ batches (min bs 5) l, b.length ≤ bs) := by
  refine ⟨?_, batches_join bs hbs l, ?_, ?_⟩
  · intro b hb
    obtain ⟨i, _, rfl⟩ := List.mem_map.mp hb
    simp [List.length_take]
  · intro i
    exact pairsTraceGet CycleEvent.runBatch (CycleEvent.pauseSecs 1) (batches bs l) i
  · intro b hb
    obtain ⟨i, _, rfl⟩ := List.mem_map.mp hb
    simp only [List.length_take]
    omega

/-- C10 witness: ceiling 2 over a three-element list: batch sizes 2 and 1,
the join is the input, and the trace alternates batch/pause events. -/
theorem batch_runner_bounded_witness :
    (∀ b ∈ batches 2 [sampleOOS, sampleChanges, sampleOOS], b.length ≤ 2) ∧
    ((batches 2 [sampleOOS, sampleChanges, sampleOOS]).flatten =
      [sampleOOS, sampleChanges, sampleOOS]) ∧
    (∀ i, (checkAllStocksTrace 2 [sampleOOS, sampleChanges, sampleOOS]).get? (2 * i) =
        ((batches 2 [sampleOOS, sampleChanges, sampleOOS]).get? i).map CycleEvent.runBatch ∧
      (checkAllStocksTrace 2 [sampleOOS, sampleChanges, sampleOOS]).get? (2 * i + 1) =
        ((batches 2 [sampleOOS, sampleChanges, sampleOOS]).get? i).map
          (fun _ => CycleEvent.pauseSecs 1)) ∧
    (∀ b ∈ batches (min 2 5) [sampleOOS, sampleChanges, sampleOOS], b.length ≤ 2) :=
  batch_runner_bounded 2 [sampleOOS, sampleChanges, sampleOOS] (by decide)
